import Mathlib

/-!
Shallow embedding of the admaren-app map core: the world grid model, the
two-click selection state machines (grid-only `GridMapComponent` and
map-embedded `MapComponent` variants), the weather provider
(`WindyWeatherService`), the route renderer (`displayRoute`) and the
wind-particle engine.

JavaScript numbers are modelled as `ℚ` where the source only performs
field arithmetic and comparisons (grid centers, color thresholds, route
waypoints), and as `ℝ` where the source calls trigonometric functions
(`Math.sin`, `Math.cos`, `Math.atan2`) or `Math.sqrt`.  Every
`Math.random()` call is modelled as an explicit parameter, one per call
site, each a value in `[0,1)`.
-/

namespace AdmarenApp

/-- JS `Math.round` on a rational: `floor(x + 0.5)` (this is how JS rounds,
including for negative halves, e.g. `Math.round(-2.5) = -2`). -/
def jsRoundQ (x : ℚ) : ℤ := ⌊x + 1/2⌋

/-- JS `Math.round` on a real: `floor(x + 0.5)`. -/
noncomputable def jsRound (x : ℝ) : ℤ := ⌊x + 1/2⌋

/-- `Math.round(x * 100) / 100` — round to 2 decimals, as used by `generateGrid`. -/
def round2 (x : ℚ) : ℚ := (jsRoundQ (x * 100) : ℚ) / 100

/-- JS truncation toward zero (the rounding used by the `%` operator). -/
noncomputable def realTrunc (x : ℝ) : ℤ := if 0 ≤ x then ⌊x⌋ else ⌈x⌉

/-- JS `%` on doubles: `a % b = a - b * trunc(a / b)` (sign of the dividend). -/
noncomputable def jsMod (a b : ℝ) : ℝ := a - b * (realTrunc (a / b) : ℝ)

/-- JS `Math.atan2(y, x)`, the argument of the point `(x, y)`, in `(−π, π]`
with `atan2(0,0) = 0` — exactly `Complex.arg`. -/
noncomputable def jsAtan2 (y x : ℝ) : ℝ := Complex.arg ⟨x, y⟩

/-- JS `value || default` on a possibly-absent number: substitutes the
default when the value is `undefined` or falsy (`0`). -/
noncomputable def jsOrNum (x : Option ℝ) (d : ℝ) : ℝ :=
  match x with
  | none => d
  | some v => if v = 0 then d else v

/-! ## Grid model -/

/-- `GridCell` record from `map.component.ts` (and the identical one in the
grid-only component). -/
structure GridCell where
  id : ℕ
  lat : ℚ
  lon : ℚ
  row : ℕ
  col : ℕ
deriving DecidableEq

instance : Inhabited GridCell := ⟨⟨0, 0, 0, 0, 0⟩⟩

/-- `SelectedCoordinates` record: both endpoints optional. -/
structure SelectedCoordinates where
  source : Option GridCell
  destination : Option GridCell
deriving DecidableEq

/-- The `selectionMode` signal: `'source' | 'destination'`. -/
inductive SelectionMode where
  | source
  | destination
deriving DecidableEq

/-- Grid constants `gridRows = 18`, `gridCols = 36`. -/
def gridRows : ℕ := 18

def gridCols : ℕ := 36

/-- Grid constants `latStep = 10`, `lonStep = 10`. -/
def latStep : ℚ := 10

def lonStep : ℚ := 10

/-- One cell of the generated grid.  The source builds the list row-major
with a counter `id` starting at 1 and incremented once per pushed cell, so
the cell at `(row, col)` receives `id = row * gridCols + col + 1`. -/
def gridCellAt (row col : ℕ) : GridCell :=
  let lat : ℚ := 90 - ((row : ℚ) * latStep + latStep / 2)
  let lon : ℚ := -180 + ((col : ℚ) * lonStep + lonStep / 2)
  { id := row * gridCols + col + 1
    lat := round2 lat
    lon := round2 lon
    row := row
    col := col }

/-- `generateGrid()`: the row-major nested loop over `gridRows × gridCols`. -/
def generateGrid : List GridCell :=
  (List.range gridRows).flatMap fun row =>
    (List.range gridCols).map fun col => gridCellAt row col

/-! ## Selection state machines

Both components keep signals `selectedCoordinates` and `selectionMode`;
the map-embedded component additionally keeps `showingRoute`.  `selectCell`
is modelled as a pure step returning the new state together with the list
of `coordinatesSelected` events emitted during the call (the grid-only and
map-embedded variants differ exactly in whether the state is reset after
the emission). -/

/-- State of the grid-only `GridMapComponent`. -/
structure GridMapState where
  selectedCoordinates : SelectedCoordinates
  selectionMode : SelectionMode
deriving DecidableEq

namespace GridMapComponent

/-- Initial signal values: `{source: null, destination: null}`, mode `'source'`. -/
def initialState : GridMapState :=
  { selectedCoordinates := ⟨none, none⟩, selectionMode := .source }

/-- `GridMapComponent.selectCell`: in `'source'` mode store the cell as source
and switch to `'destination'` mode; in `'destination'` mode store the cell as
destination, emit the pair, then reset mode to `'source'` and clear both
coordinates. -/
def selectCell (s : GridMapState) (cell : GridCell) :
    GridMapState × List SelectedCoordinates :=
  match s.selectionMode with
  | .source =>
      ({ selectedCoordinates :=
           { s.selectedCoordinates with source := some cell }
         selectionMode := .destination }, [])
  | .destination =>
      let updated : SelectedCoordinates :=
        { source := s.selectedCoordinates.source, destination := some cell }
      ({ selectedCoordinates := ⟨none, none⟩, selectionMode := .source },
       [updated])

/-- `GridMapComponent.resetSelection`. -/
def resetSelection (_s : GridMapState) : GridMapState := initialState

end GridMapComponent

/-- State of the map-embedded `MapComponent` selection (signals
`selectedCoordinates`, `selectionMode`, `showingRoute`). -/
structure MapState where
  selectedCoordinates : SelectedCoordinates
  selectionMode : SelectionMode
  showingRoute : Bool
deriving DecidableEq

namespace MapComponent

/-- Initial signal values of `MapComponent`. -/
def initialState : MapState :=
  { selectedCoordinates := ⟨none, none⟩, selectionMode := .source
    showingRoute := false }

/-- `MapComponent.selectCell`: in `'source'` mode store the cell as source and
switch to `'destination'` mode; in `'destination'` mode store the cell as
destination, emit the pair and set `showingRoute` — the selection is NOT
reset (the mode stays `'destination'` and both coordinates are retained). -/
def selectCell (s : MapState) (cell : GridCell) :
    MapState × List SelectedCoordinates :=
  match s.selectionMode with
  | .source =>
      ({ s with
           selectedCoordinates :=
             { source := some cell
               destination := s.selectedCoordinates.destination }
           selectionMode := .destination }, [])
  | .destination =>
      let updated : SelectedCoordinates :=
        { source := s.selectedCoordinates.source, destination := some cell }
      ({ s with selectedCoordinates := updated, showingRoute := true },
       [updated])

/-- `MapComponent.resetSelection`: clears both coordinates, returns the mode
to `'source'` and stops showing the route (it also clears the route layer
group, which has no counterpart in this state model). -/
def resetSelection (_s : MapState) : MapState :=
  { selectedCoordinates := ⟨none, none⟩, selectionMode := .source
    showingRoute := false }

/-- `MapComponent.isCellOnRoute`: `false` unless both endpoints are set, else
a closed bounding-rectangle containment test on the cell center. -/
def isCellOnRoute (cell : GridCell) (source destination : Option GridCell) :
    Bool :=
  match source, destination with
  | some s, some d =>
      decide (min s.lat d.lat ≤ cell.lat ∧ cell.lat ≤ max s.lat d.lat ∧
        min s.lon d.lon ≤ cell.lon ∧ cell.lon ≤ max s.lon d.lon)
  | _, _ => false

end MapComponent

/-! ## Route renderer (`MapComponent.displayRoute`) -/

/-- `Waypoint` record. -/
structure Waypoint where
  lat : ℚ
  lon : ℚ
deriving DecidableEq

/-- `RoutingData` record: one route segment. -/
structure RoutingData where
  resultCode : ℤ
  resultText : String
  totalDistance : ℚ
  secaDistance : ℚ
  waypoints : List Waypoint
  metadata : Option String
  arrived_flag : Bool

/-- The draw calls `displayRoute` can issue against the map library, in
issue order: endpoint circle markers, the segment polyline, the every-5th
intermediate circle markers and the final viewport bounds fit. -/
inductive DrawCmd where
  | sourceMarker (coord : ℚ × ℚ)
  | destMarker (coord : ℚ × ℚ)
  | polyline (coords : List (ℚ × ℚ))
  | waypointMarker (coord : ℚ × ℚ)
  | fitBounds
deriving DecidableEq

namespace MapComponent

/-- Indices visited by `for (let i = 1; i < coordinates.length - 1; i += 5)`:
`1, 6, 11, ...` strictly below `len - 1`. -/
def intermediateIndices (len : ℕ) : List ℕ :=
  (List.range len).filter fun i => 1 ≤ i ∧ i < len - 1 ∧ (i - 1) % 5 = 0

/-- Draw calls issued for the segment at index `idx` of an `n`-segment
route: skip the segment when its waypoints are empty; otherwise a source
marker on the first segment, a destination marker on the last, the
polyline, and the intermediate markers. -/
def segmentCmds (n idx : ℕ) (rd : RoutingData) : List DrawCmd :=
  let coords : List (ℚ × ℚ) := rd.waypoints.map fun wp => (wp.lat, wp.lon)
  if coords.isEmpty then []
  else
    (if idx = 0 then [DrawCmd.sourceMarker coords.headI] else []) ++
    (if idx = n - 1 then [DrawCmd.destMarker coords.getLastI] else []) ++
    [DrawCmd.polyline coords] ++
    (intermediateIndices coords.length).map fun i =>
      DrawCmd.waypointMarker (coords.getD i (0, 0))

/-- The `forEach` over segments, carrying the running segment index. -/
def segmentsCmds (n : ℕ) : ℕ → List RoutingData → List DrawCmd
  | _, [] => []
  | idx, rd :: rest => segmentCmds n idx rd ++ segmentsCmds n (idx + 1) rest

/-- `MapComponent.displayRoute`: `none` models a null argument.  After
clearing the previous route, an absent or empty segment array returns
immediately; otherwise each segment is rendered and, when any geometry was
drawn (the feature group's bounds are valid), the viewport is fitted. -/
def displayRoute (routingDataArray : Option (List RoutingData)) :
    List DrawCmd :=
  match routingDataArray with
  | none => []
  | some arr =>
      if arr.isEmpty then []
      else
        let drawn := segmentsCmds arr.length 0 arr
        drawn ++ if drawn.isEmpty then [] else [DrawCmd.fitBounds]

end MapComponent

/-! ## Particle engine -/

/-- `WindParticle` record.  `age` is a JS number that starts at `0` and is
incremented by `1` per tick, so it is kept as `ℝ` exactly as in the
source. -/
structure WindParticle where
  x : ℝ
  y : ℝ
  vx : ℝ
  vy : ℝ
  age : ℝ
  life : ℝ
  brightness : ℝ

/-- The seven `Math.random()` draws of one particle's initialization in
`initializeParticleSystem`, in source order. -/
structure InitRand where
  rSpeedVar : ℝ
  rVx : ℝ
  rVy : ℝ
  rX : ℝ
  rY : ℝ
  rLife : ℝ
  rBright : ℝ

/-- The `Math.random()` draws one particle can consume during one
animation tick: two turbulence draws, plus the four respawn draws used
only when the particle's age exceeds its life. -/
structure TickRand where
  rTurbX : ℝ
  rTurbY : ℝ
  rX : ℝ
  rY : ℝ
  rLife : ℝ
  rBright : ℝ

namespace MapComponent

/-- One particle seeded by `initializeParticleSystem` from the wind sample
at the map center: velocity aligned with the wind direction with jittered
speed, random canvas position, `age = 0`, `life ∈ [100, 250)` and
`brightness ∈ [0.5, 1)`. -/
noncomputable def initParticle (windAngleRad windSpeedMs : ℝ) (r : InitRand) :
    WindParticle :=
  let speedVariation := 0.8 + r.rSpeedVar * 0.4
  { x := r.rX * 1000
    y := r.rY * 600
    vx := Real.cos windAngleRad * (windSpeedMs / 4) * speedVariation +
      (r.rVx - 0.5) * 1
    vy := Real.sin windAngleRad * (windSpeedMs / 4) * speedVariation +
      (r.rVy - 0.5) * 1
    age := 0
    life := r.rLife * 150 + 100
    brightness := r.rBright * 0.5 + 0.5 }

/-- One particle's state update during one tick of
`animateWeatherVisualization`: integrate position, increment age, add
turbulence and the gust term, wrap at the canvas edges (±50px margin),
and finally the respawn check — a particle whose age exceeds its life is
re-randomized in place with `age = 0`, fresh life and brightness.  The
drawing between the wrap and the respawn check does not touch the
particle. -/
noncomputable def tickParticle (canvasWidth canvasHeight : ℝ) (r : TickRand)
    (p : WindParticle) : WindParticle :=
  let x1 := p.x + p.vx
  let y1 := p.y + p.vy
  let age1 := p.age + 1
  let gustFactor := Real.sin (age1 * 0.02) * 0.5
  let vx1 := p.vx + (r.rTurbX - 0.5) * 0.4 + gustFactor * 0.2
  let vy1 := p.vy + (r.rTurbY - 0.5) * 0.4 + gustFactor * 0.2
  let x2 := if x1 < -50 then canvasWidth + 50
    else if x1 > canvasWidth + 50 then -50 else x1
  let y2 := if y1 < -50 then canvasHeight + 50
    else if y1 > canvasHeight + 50 then -50 else y1
  if age1 > p.life then
    { x := r.rX * canvasWidth, y := r.rY * canvasHeight, vx := vx1, vy := vy1
      age := 0, life := r.rLife * 150 + 100
      brightness := r.rBright * 0.5 + 0.5 }
  else
    { x := x2, y := y2, vx := vx1, vy := vy1, age := age1, life := p.life
      brightness := p.brightness }

/-- One full animation tick over the pool: the `forEach` updates every
particle in place (indexed randomness), removing none and adding none. -/
noncomputable def animateTick (canvasWidth canvasHeight : ℝ)
    (rand : ℕ → TickRand) (ps : List WindParticle) : List WindParticle :=
  ps.enum.map fun pair =>
    tickParticle canvasWidth canvasHeight (rand pair.1) pair.2

/-- The pool invariant of the spec: `0 ≤ age ≤ life` immediately after the
respawn check. -/
def ageInvariant (p : WindParticle) : Prop := 0 ≤ p.age ∧ p.age ≤ p.life

end MapComponent

/-! ## Weather service -/

/-- The `wind` sub-record of `WindyWeatherData`. -/
structure Wind where
  speed : ℝ
  direction : ℝ
  u : ℝ
  v : ℝ

/-- `WindyWeatherData`: the complete weather sample returned by the
service.  `cape` and `visibility` are optional in the source interface and
never populated by either producer, so they are omitted here. -/
structure WindyWeatherData where
  wind : Wind
  temp : ℝ
  rh : ℝ
  pressure : ℝ
  gust : ℝ

/-- `WindyApiResponse`: the point-forecast payload.  Each data field is a
2-D numeric array; `Option` models a field that is absent from the payload
(the parser guards every access with `?.` and `||`). -/
structure WindyApiResponse where
  ts : ℤ
  wind : Option (List (List ℝ))
  temp : Option (List (List ℝ))
  rh : Option (List (List ℝ))
  pressure : Option (List (List ℝ))
  gust : Option (List (List ℝ))

namespace WindyWeatherService

/-- `WindyWeatherService.parseWindyResponse`: take the first data point of
each 2-D array, substituting fixed defaults for anything absent (or `0`,
which JS `||` also replaces): wind row `[0,0]`, temperature `15`, relative
humidity `50`, pressure `101325`, gust `0`; then recompute speed and
direction from the `u,v` components. -/
noncomputable def parseWindyResponse (response : WindyApiResponse)
    (_lat _lon : ℝ) : WindyWeatherData :=
  let windData : List ℝ := (response.wind.bind List.head?).getD [0, 0]
  let tempValue : ℝ :=
    jsOrNum ((response.temp.bind List.head?).bind List.head?) 15
  let rhValue : ℝ :=
    jsOrNum ((response.rh.bind List.head?).bind List.head?) 50
  let pressureValue : ℝ :=
    jsOrNum ((response.pressure.bind List.head?).bind List.head?) 101325
  let gustValue : ℝ :=
    jsOrNum ((response.gust.bind List.head?).bind List.head?) 0
  let u : ℝ := jsOrNum windData.head? 0
  let v : ℝ := jsOrNum windData[1]? 0
  let speed : ℝ := Real.sqrt (u * u + v * v)
  let direction : ℝ := jsMod (jsAtan2 u v * 180 / Real.pi + 180) 360
  { wind := { speed := speed, direction := direction, u := u, v := v }
    temp := tempValue
    rh := rhValue
    pressure := pressureValue
    gust := gustValue }

/-- The six `Math.random()` draws made by one call of
`generateSimulatedWeatherData`, in source order. -/
structure SimRand where
  rTemp : ℝ
  rWind : ℝ
  rDir : ℝ
  rRH : ℝ
  rPressure : ℝ
  rGust : ℝ

/-- `WindyWeatherService.generateSimulatedWeatherData`: the deterministic
fallback simulator (deterministic once the six random draws are fixed). -/
noncomputable def generateSimulatedWeatherData (lat lon : ℝ) (r : SimRand) :
    WindyWeatherData :=
  let baseTemp : ℝ := 20 - |lat| * 0.5
  let temp : ℝ := baseTemp + Real.sin (lon * 0.1) * 8 + (r.rTemp - 0.5) * 5
  let baseWindSpeed : ℝ := |Real.sin (lat * Real.pi / 180)| * 15 + 3
  let windSpeed : ℝ := baseWindSpeed + (r.rWind - 0.5) * 5
  let windDirection : ℝ := jsMod (lon * 2 + lat + r.rDir * 360) 360
  let angleRad : ℝ := windDirection * Real.pi / 180
  let u : ℝ := windSpeed * Real.sin angleRad
  let v : ℝ := windSpeed * Real.cos angleRad
  let baseRH : ℝ := 60 - |lat| * 0.3
  let rh : ℝ := max 30 (min 95 (baseRH + (r.rRH - 0.5) * 20))
  let basePressure : ℝ := 101325 + Real.sin (lat * Real.pi / 180) * 1000
  let pressure : ℝ := basePressure + (r.rPressure - 0.5) * 500
  let gust : ℝ := windSpeed * (1.5 + r.rGust * 0.5)
  { wind := { speed := windSpeed, direction := windDirection, u := u, v := v }
    temp := (jsRound (temp * 10) : ℝ) / 10
    rh := (jsRound rh : ℝ)
    pressure := (jsRound pressure : ℝ)
    gust := (jsRound (gust * 10) : ℝ) / 10 }

/-- Outcome of the HTTP GET against the point-forecast endpoint: either a
parsed payload or any transport/API error (the `catchError` branch). -/
inductive FetchOutcome where
  | success (resp : WindyApiResponse)
  | failure

/-- The placeholder credential shipped in the source. -/
def placeholderApiKey : String := "YOUR_WINDY_API_KEY"

/-- `WindyWeatherService.getWeatherData`: with the placeholder credential
the simulator is used directly; otherwise the remote response is parsed,
and any fetch failure falls back to the simulator (after logging a
warning).  The function is total: it always returns a complete sample. -/
noncomputable def getWeatherData (apiKey : String) (fetch : FetchOutcome)
    (lat lon : ℝ) (r : SimRand) : WindyWeatherData :=
  if apiKey = placeholderApiKey then
    generateSimulatedWeatherData lat lon r
  else
    match fetch with
    | .success resp => parseWindyResponse resp lat lon
    | .failure => generateSimulatedWeatherData lat lon r

/-- `WindyWeatherService.getWindSpeedColor`: the 7-bucket wind palette.
Thresholds are plain double comparisons, modelled over `ℚ`. -/
def getWindSpeedColor (speedMs : ℚ) : String :=
  if speedMs < 2 then "#0066CC"
  else if speedMs < 5 then "#00CCFF"
  else if speedMs < 10 then "#00FF00"
  else if speedMs < 15 then "#FFFF00"
  else if speedMs < 20 then "#FF8800"
  else if speedMs < 25 then "#FF4400"
  else "#FF0000"

/-- Bucket index of a wind speed (0 = calmest, 6 = storm), with the same
thresholds as `getWindSpeedColor`. -/
def windBucket (speedMs : ℚ) : ℕ :=
  if speedMs < 2 then 0
  else if speedMs < 5 then 1
  else if speedMs < 10 then 2
  else if speedMs < 15 then 3
  else if speedMs < 20 then 4
  else if speedMs < 25 then 5
  else 6

/-- The palette entry of each bucket. -/
def windColorOfBucket (n : ℕ) : String :=
  match n with
  | 0 => "#0066CC"
  | 1 => "#00CCFF"
  | 2 => "#00FF00"
  | 3 => "#FFFF00"
  | 4 => "#FF8800"
  | 5 => "#FF4400"
  | _ => "#FF0000"

/-- The six random draws that make every noise term of the simulator
vanish: the `(r − 0.5)·a` terms need `r = 1/2`, the `r·a` terms need
`r = 0`. -/
noncomputable def zeroNoise : SimRand := ⟨1/2, 1/2, 0, 1/2, 1/2, 0⟩

/-- A payload with every data field absent. -/
def emptyResponse : WindyApiResponse := ⟨0, none, none, none, none, none⟩

end WindyWeatherService

/-! ## Theorems: grid model and selection state machines -/

/-- `Math.round(x*100)/100` is the identity on integers (all grid centers
are integers, so the 2-decimal rounding leaves them unchanged). -/
lemma round2_intCast (n : ℤ) : round2 (n : ℚ) = n := by
  unfold round2 jsRoundQ
  have h : ⌊(n : ℚ) * 100 + 1/2⌋ = n * 100 := by
    rw [Int.floor_eq_iff]
    constructor
    · push_cast; linarith
    · push_cast; linarith
  rw [h]
  push_cast
  ring_nf

/-- Closed form of the cell generated at `(row, col)`. -/
lemma gridCellAt_eq (row col : ℕ) :
    gridCellAt row col =
      { id := row * 36 + col + 1, lat := 85 - 10 * (row : ℚ),
        lon := -175 + 10 * (col : ℚ), row := row, col := col } := by
  unfold gridCellAt gridCols latStep lonStep
  have hlat : (90 : ℚ) - ((row : ℚ) * 10 + 10 / 2) =
      ((85 - 10 * (row : ℤ) : ℤ) : ℚ) := by
    push_cast; ring
  have hlon : (-180 : ℚ) + ((col : ℚ) * 10 + 10 / 2) =
      ((-175 + 10 * (col : ℤ) : ℤ) : ℚ) := by
    push_cast; ring
  simp only [hlat, hlon, round2_intCast]
  simp [GridCell.mk.injEq]

/-- Every cell generated at a legal `(row, col)` is in the grid. -/
lemma gridCellAt_mem (row col : ℕ) (hrow : row < 18) (hcol : col < 36) :
    gridCellAt row col ∈ generateGrid := by
  simp only [generateGrid, List.mem_flatMap, List.mem_map, List.mem_range,
    gridRows, gridCols]
  exact ⟨row, hrow, col, hcol, rfl⟩

set_option maxRecDepth 10000 in
/-- C1: `generateGrid()` is deterministic and pure: it always returns exactly
648 cells (18 rows × 36 columns) in row-major order with ids unique and
contiguous from 1 to 648, latitude centers `85, 75, ..., −85` by row and
longitude centers `−175, −165, ..., 175` by column, each center rounded to
2 decimals (the rounding is the identity here since all centers are
integers).  The id list `[1, ..., 648]` together with
`id = row*36 + col + 1` pins the row-major order. -/
theorem generateGrid_spec :
    generateGrid.length = 648 ∧
    generateGrid.map GridCell.id = List.range' 1 648 ∧
    (∀ cell ∈ generateGrid,
      cell.row < 18 ∧ cell.col < 36 ∧
      cell.id = cell.row * 36 + cell.col + 1 ∧
      cell.lat = 85 - 10 * (cell.row : ℚ) ∧
      cell.lon = -175 + 10 * (cell.col : ℚ)) ∧
    (∀ row, row < 18 → ∀ col, col < 36 →
      gridCellAt row col ∈ generateGrid ∧
      (gridCellAt row col).lat = 85 - 10 * (row : ℚ) ∧
      (gridCellAt row col).lon = -175 + 10 * (col : ℚ)) := by
  have hids : generateGrid.map GridCell.id = List.range' 1 648 := by decide
  refine ⟨?_, hids, ?_, ?_⟩
  · have := congrArg List.length hids
    simpa using this
  · intro cell hmem
    simp only [generateGrid, List.mem_flatMap, List.mem_map, List.mem_range,
      gridRows, gridCols] at hmem
    obtain ⟨row, hrow, col, hcol, rfl⟩ := hmem
    rw [gridCellAt_eq]
    exact ⟨hrow, hcol, rfl, rfl, rfl⟩
  · intro row hrow col hcol
    refine ⟨gridCellAt_mem row col hrow hcol, ?_, ?_⟩ <;>
      rw [gridCellAt_eq]

/-- C1 witness: the spec theorem applied to the concrete corner cells. -/
theorem generateGrid_spec_witness :
    (gridCellAt 0 0).lat = 85 ∧ (gridCellAt 0 0).lon = -175 ∧
    (gridCellAt 17 35).lat = -85 ∧ (gridCellAt 17 35).lon = 175 ∧
    gridCellAt 0 0 ∈ generateGrid ∧ gridCellAt 17 35 ∈ generateGrid := by
  obtain ⟨-, -, -, hall⟩ := generateGrid_spec
  obtain ⟨hm0, hlat0, hlon0⟩ := hall 0 (by norm_num) 0 (by norm_num)
  obtain ⟨hm1, hlat1, hlon1⟩ := hall 17 (by norm_num) 35 (by norm_num)
  refine ⟨?_, ?_, ?_, ?_, hm0, hm1⟩
  · rw [hlat0]; norm_num
  · rw [hlon0]; norm_num
  · rw [hlat1]; norm_num
  · rw [hlon1]; norm_num

/-- C2: in the grid-only variant, starting from
`{source=null, destination=null, mode=Source}`, the first `selectCell c1`
yields `{c1, null, Destination}` and emits nothing; the second
`selectCell c2` emits exactly one `CoordinatesSelected` event with
`source = c1` and `destination = c2` and resets the state to
`{null, null, Source}`. -/
theorem gridMap_selectCell_spec (c1 c2 : GridCell) :
    GridMapComponent.selectCell GridMapComponent.initialState c1 =
      ({ selectedCoordinates := ⟨some c1, none⟩
         selectionMode := .destination }, []) ∧
    GridMapComponent.selectCell
        (GridMapComponent.selectCell GridMapComponent.initialState c1).1 c2 =
      (GridMapComponent.initialState, [⟨some c1, some c2⟩]) := by
  exact ⟨rfl, rfl⟩

/-- C3: in the map-embedded variant, a click in `Destination` mode sets the
destination and emits the pair, retaining the whole selection (the state is
not reset); moreover `selectCell` can never produce the cleared selection
`{null, null}`, which is produced (together with mode `Source`) exactly by
`resetSelection`. -/
theorem map_selectCell_retains_selection :
    (∀ (s : MapState) (c : GridCell), s.selectionMode = .destination →
      MapComponent.selectCell s c =
        ({ selectedCoordinates := ⟨s.selectedCoordinates.source, some c⟩
           selectionMode := .destination, showingRoute := true },
         [⟨s.selectedCoordinates.source, some c⟩])) ∧
    (∀ (s : MapState) (c : GridCell),
      ¬((MapComponent.selectCell s c).1.selectedCoordinates.source = none ∧
        (MapComponent.selectCell s c).1.selectedCoordinates.destination
          = none)) ∧
    (∀ s : MapState, MapComponent.resetSelection s =
      { selectedCoordinates := ⟨none, none⟩, selectionMode := .source
        showingRoute := false }) := by
  refine ⟨?_, ?_, fun s => rfl⟩
  · rintro ⟨coords, mode, route⟩ c h
    cases h
    rfl
  · rintro ⟨coords, mode, route⟩ c
    cases mode <;> simp [MapComponent.selectCell]

/-- C3 witness: the theorem applied at a concrete destination-mode state. -/
theorem map_selectCell_retains_selection_witness :
    MapComponent.selectCell
        { selectedCoordinates := ⟨some (gridCellAt 0 0), none⟩
          selectionMode := .destination, showingRoute := false }
        (gridCellAt 17 35) =
      ({ selectedCoordinates := ⟨some (gridCellAt 0 0), some (gridCellAt 17 35)⟩
         selectionMode := .destination, showingRoute := true },
       [⟨some (gridCellAt 0 0), some (gridCellAt 17 35)⟩]) := by
  exact map_selectCell_retains_selection.1
    { selectedCoordinates := ⟨some (gridCellAt 0 0), none⟩
      selectionMode := .destination, showingRoute := false }
    (gridCellAt 17 35) rfl

/-- C9: a grid cell is flagged on-route exactly when both selection
endpoints are set and the cell's lat and lon each fall within the closed
bounding rectangle spanned by the two selected endpoint cells; when either
endpoint is unset, no cell is on-route. -/
theorem isCellOnRoute_spec :
    (∀ cell s d : GridCell,
      MapComponent.isCellOnRoute cell (some s) (some d) = true ↔
        (min s.lat d.lat ≤ cell.lat ∧ cell.lat ≤ max s.lat d.lat ∧
         min s.lon d.lon ≤ cell.lon ∧ cell.lon ≤ max s.lon d.lon)) ∧
    (∀ (cell : GridCell) (d : Option GridCell),
      MapComponent.isCellOnRoute cell none d = false) ∧
    (∀ (cell : GridCell) (s : Option GridCell),
      MapComponent.isCellOnRoute cell s none = false) := by
  refine ⟨?_, ?_, ?_⟩
  · intro cell s d
    simp [MapComponent.isCellOnRoute]
  · intro cell d
    rfl
  · intro cell s
    cases s <;> rfl

/-! ## Theorems: route renderer -/

/-- A segment array whose members all have empty waypoint lists generates
no draw calls, whatever the running index. -/
lemma segmentsCmds_all_empty (n : ℕ) (arr : List RoutingData)
    (h : ∀ rd ∈ arr, rd.waypoints = []) :
    ∀ idx, MapComponent.segmentsCmds n idx arr = [] := by
  induction arr with
  | nil => intro idx; rfl
  | cons rd rest ih =>
      intro idx
      have hrd : rd.waypoints = [] := h rd (by simp)
      have hrest : ∀ x ∈ rest, x.waypoints = [] :=
        fun x hx => h x (by simp [hx])
      simp [MapComponent.segmentsCmds, MapComponent.segmentCmds, hrd,
        ih hrest]

/-- C8: `displayRoute` with a missing or empty route array, or with every
segment's waypoint list empty, performs no draw calls at all (no markers,
no polyline, no bounds fit) — and, being a total function, does not
throw. -/
theorem displayRoute_empty_noop :
    MapComponent.displayRoute none = [] ∧
    MapComponent.displayRoute (some []) = [] ∧
    (∀ arr : List RoutingData, (∀ rd ∈ arr, rd.waypoints = []) →
      MapComponent.displayRoute (some arr) = []) := by
  refine ⟨rfl, rfl, ?_⟩
  intro arr h
  unfold MapComponent.displayRoute
  rcases arr with - | ⟨rd, rest⟩
  · rfl
  · simp [segmentsCmds_all_empty _ _ h]

/-- C8 witness: the no-op theorem applied to a concrete one-segment route
whose waypoint list is empty. -/
theorem displayRoute_empty_noop_witness :
    MapComponent.displayRoute
      (some [{ resultCode := 0, resultText := "", totalDistance := 0,
               secaDistance := 0, waypoints := [], metadata := none,
               arrived_flag := false }]) = [] := by
  exact displayRoute_empty_noop.2.2
    [{ resultCode := 0, resultText := "", totalDistance := 0,
       secaDistance := 0, waypoints := [], metadata := none,
       arrived_flag := false }]
    (by intro rd hrd; simp at hrd; rw [hrd])

/-! ## Theorems: particle engine -/

/-- One tick keeps `0 ≤ age ≤ life`, given only that the incoming age is
nonnegative and the respawn draw is nonnegative. -/
lemma tickParticle_preserves (W H : ℝ) (r : TickRand) (p : WindParticle)
    (hage : 0 ≤ p.age) (hr : 0 ≤ r.rLife) :
    MapComponent.ageInvariant (MapComponent.tickParticle W H r p) := by
  unfold MapComponent.ageInvariant
  by_cases h : p.age + 1 > p.life
  · simp only [MapComponent.tickParticle]
    rw [if_pos h]
    constructor
    · norm_num
    · simp only
      nlinarith
  · simp only [MapComponent.tickParticle]
    rw [if_neg h]
    constructor
    · simp only
      linarith
    · simp only
      linarith [not_lt.mp h]

/-- C7: after any number of animation ticks the pool keeps its size (no
particle is ever destroyed) and every particle satisfies
`0 ≤ age ≤ life` immediately after the respawn check; a particle whose
age exceeds its life is respawned in place at a random canvas position
with `age = 0`, a fresh life in `[100, 250)` and a fresh brightness in
`[0.5, 1)`; and freshly seeded particles satisfy the invariant too. -/
theorem particle_respawn_invariant :
    (∀ (W H : ℝ) (rounds : List (ℕ → TickRand)) (ps : List WindParticle),
      (∀ p ∈ ps, MapComponent.ageInvariant p) →
      (∀ f ∈ rounds, ∀ n, 0 ≤ (f n).rLife) →
      (rounds.foldl (fun qs f => MapComponent.animateTick W H f qs)
          ps).length = ps.length ∧
      (∀ p ∈ rounds.foldl (fun qs f => MapComponent.animateTick W H f qs) ps,
        MapComponent.ageInvariant p)) ∧
    (∀ (θ ws : ℝ) (ir : InitRand), 0 ≤ ir.rLife →
      MapComponent.ageInvariant (MapComponent.initParticle θ ws ir)) ∧
    (∀ (W H : ℝ) (r : TickRand) (p : WindParticle),
      p.age + 1 > p.life → 0 ≤ r.rLife → r.rLife < 1 →
      0 ≤ r.rBright → r.rBright < 1 →
      (MapComponent.tickParticle W H r p).age = 0 ∧
      100 ≤ (MapComponent.tickParticle W H r p).life ∧
      (MapComponent.tickParticle W H r p).life < 250 ∧
      1/2 ≤ (MapComponent.tickParticle W H r p).brightness ∧
      (MapComponent.tickParticle W H r p).brightness < 1 ∧
      (MapComponent.tickParticle W H r p).x = r.rX * W ∧
      (MapComponent.tickParticle W H r p).y = r.rY * H) := by
  refine ⟨?_, ?_, ?_⟩
  · intro W H rounds
    induction rounds with
    | nil => intro ps hps _; exact ⟨rfl, hps⟩
    | cons f rest ih =>
        intro ps hps hrounds
        have hstep : ∀ p ∈ MapComponent.animateTick W H f ps,
            MapComponent.ageInvariant p := by
          intro p hp
          simp only [MapComponent.animateTick, List.mem_map] at hp
          obtain ⟨pair, hpair, rfl⟩ := hp
          have hmem : pair.2 ∈ ps := List.snd_mem_of_mem_enum hpair
          exact tickParticle_preserves W H (f pair.1) pair.2
            ((hps pair.2 hmem).1) (hrounds f (by simp) pair.1)
        have hlen : (MapComponent.animateTick W H f ps).length = ps.length := by
          simp [MapComponent.animateTick]
        have hrec := ih (MapComponent.animateTick W H f ps) hstep
          (fun g hg n => hrounds g (by simp [hg]) n)
        exact ⟨by simpa [hlen] using hrec.1, hrec.2⟩
  · intro θ ws ir h
    simp only [MapComponent.initParticle, MapComponent.ageInvariant]
    constructor
    · norm_num
    · nlinarith
  · intro W H r p hresp hr1 hr2 hb1 hb2
    simp only [MapComponent.tickParticle]
    rw [if_pos hresp]
    refine ⟨rfl, by nlinarith, by nlinarith, by nlinarith, by nlinarith,
      rfl, rfl⟩

/-- C7 witness: the invariant theorem applied to a concrete one-particle
pool driven through one animation tick with fixed random draws. -/
theorem particle_respawn_invariant_witness :
    (([fun _ => (⟨0, 0, 0, 0, 0, 0⟩ : TickRand)] :
        List (ℕ → TickRand)).foldl
      (fun qs f => MapComponent.animateTick 1000 600 f qs)
      [MapComponent.initParticle 0 0 ⟨0, 0, 0, 0, 0, 0, 0⟩]).length = 1 ∧
    (∀ p ∈ (([fun _ => (⟨0, 0, 0, 0, 0, 0⟩ : TickRand)] :
        List (ℕ → TickRand)).foldl
      (fun qs f => MapComponent.animateTick 1000 600 f qs)
      [MapComponent.initParticle 0 0 ⟨0, 0, 0, 0, 0, 0, 0⟩]),
      MapComponent.ageInvariant p) := by
  have h := particle_respawn_invariant.1 1000 600
    [fun _ => (⟨0, 0, 0, 0, 0, 0⟩ : TickRand)]
    [MapComponent.initParticle 0 0 ⟨0, 0, 0, 0, 0, 0, 0⟩]
    (by
      intro p hp
      simp only [List.mem_singleton] at hp
      subst hp
      simp only [MapComponent.initParticle, MapComponent.ageInvariant]
      norm_num)
    (by
      intro f hf n
      simp only [List.mem_singleton] at hf
      subst hf
      norm_num)
  exact ⟨by simpa using h.1, h.2⟩

/-! ## Theorems: weather service -/

namespace WindyWeatherService

/-- JS `Math.round` is the identity on integers. -/
lemma jsRound_intCast (n : ℤ) : jsRound (n : ℝ) = n := by
  unfold jsRound
  rw [Int.floor_eq_iff]
  constructor <;> norm_num

/-- C4: `getWeatherData` never surfaces a failure: on a fetch failure, or
when the credential is the shipped placeholder, it returns the
deterministic simulator's sample, and in every case it resolves with a
complete weather sample (either the parsed response or a simulated one). -/
theorem getWeatherData_never_fails :
    (∀ (apiKey : String) (lat lon : ℝ) (r : SimRand),
      getWeatherData apiKey .failure lat lon r =
        generateSimulatedWeatherData lat lon r) ∧
    (∀ (fetch : FetchOutcome) (lat lon : ℝ) (r : SimRand),
      getWeatherData placeholderApiKey fetch lat lon r =
        generateSimulatedWeatherData lat lon r) ∧
    (∀ (apiKey : String) (fetch : FetchOutcome) (lat lon : ℝ) (r : SimRand),
      getWeatherData apiKey fetch lat lon r =
        generateSimulatedWeatherData lat lon r ∨
      ∃ resp, fetch = .success resp ∧
        getWeatherData apiKey fetch lat lon r =
          parseWindyResponse resp lat lon) := by
  refine ⟨?_, ?_, ?_⟩
  · intro apiKey lat lon r
    unfold getWeatherData
    split_ifs <;> rfl
  · intro fetch lat lon r
    unfold getWeatherData
    simp
  · intro apiKey fetch lat lon r
    unfold getWeatherData
    split_ifs with h
    · exact Or.inl rfl
    · cases fetch with
      | success resp => exact Or.inr ⟨resp, rfl, rfl⟩
      | failure => exact Or.inl rfl

/-- C5: with every noise term fixed to 0 the simulator follows the
documented formulas, and at `lat = 0`, `lon = 0` yields temperature `20`,
wind speed `3`, pressure `101325` and relative humidity `60`. -/
theorem generateSimulatedWeatherData_zeroNoise :
    (∀ lat lon : ℝ,
      (generateSimulatedWeatherData lat lon zeroNoise).temp =
        (jsRound ((20 - |lat| * 0.5 + Real.sin (lon * 0.1) * 8) * 10) : ℝ)
          / 10 ∧
      (generateSimulatedWeatherData lat lon zeroNoise).wind.speed =
        |Real.sin (lat * Real.pi / 180)| * 15 + 3 ∧
      (generateSimulatedWeatherData lat lon zeroNoise).rh =
        (jsRound (max 30 (min 95 (60 - |lat| * 0.3))) : ℝ) ∧
      (generateSimulatedWeatherData lat lon zeroNoise).pressure =
        (jsRound (101325 + Real.sin (lat * Real.pi / 180) * 1000) : ℝ)) ∧
    (generateSimulatedWeatherData 0 0 zeroNoise).temp = 20 ∧
    (generateSimulatedWeatherData 0 0 zeroNoise).wind.speed = 3 ∧
    (generateSimulatedWeatherData 0 0 zeroNoise).pressure = 101325 ∧
    (generateSimulatedWeatherData 0 0 zeroNoise).rh = 60 := by
  constructor
  · intro lat lon
    refine ⟨?_, ?_, ?_, ?_⟩ <;>
      · simp only [generateSimulatedWeatherData, zeroNoise]
        norm_num
  · have h200 : jsRound ((200 : ℤ) : ℝ) = 200 := jsRound_intCast 200
    have h101325 : jsRound ((101325 : ℤ) : ℝ) = 101325 :=
      jsRound_intCast 101325
    have h60 : jsRound ((60 : ℤ) : ℝ) = 60 := jsRound_intCast 60
    simp only [generateSimulatedWeatherData, zeroNoise]
    norm_num [Real.sin_zero] at h200 h101325 h60 ⊢
    rw [h200, h101325, h60]
    norm_num

/-- C6: `getWindSpeedColor` is a monotonic step function with boundaries at
2, 5, 10, 15, 20, 25 m/s: speed 1 gets the deep-blue bucket, 30 the red
bucket, and each boundary value lands in the bucket above it. -/
theorem getWindSpeedColor_spec :
    (∀ s t : ℚ, s ≤ t → windBucket s ≤ windBucket t) ∧
    (∀ s : ℚ, getWindSpeedColor s = windColorOfBucket (windBucket s)) ∧
    getWindSpeedColor 1 = "#0066CC" ∧
    getWindSpeedColor 30 = "#FF0000" ∧
    getWindSpeedColor 2 = "#00CCFF" ∧
    getWindSpeedColor 5 = "#00FF00" ∧
    getWindSpeedColor 10 = "#FFFF00" ∧
    getWindSpeedColor 15 = "#FF8800" ∧
    getWindSpeedColor 20 = "#FF4400" ∧
    getWindSpeedColor 25 = "#FF0000" := by
  refine ⟨?_, ?_, ?_, ?_, ?_, ?_, ?_, ?_, ?_, ?_⟩
  · intro s t hst
    unfold windBucket
    split_ifs <;> try omega
    all_goals linarith
  · intro s
    unfold getWindSpeedColor windBucket windColorOfBucket
    split_ifs <;> rfl
  all_goals norm_num [getWindSpeedColor]

/-- C6 witness: monotonicity applied at the claim's two sample speeds. -/
theorem getWindSpeedColor_spec_witness :
    (1 : ℚ) ≤ 30 ∧ windBucket 1 ≤ windBucket 30 :=
  ⟨by norm_num, getWindSpeedColor_spec.1 1 30 (by norm_num)⟩

/-- C10: parsing a remote response is total over missing fields: every
absent field is replaced by its fixed default — wind row `[0,0]` (hence
`u = v = 0` and speed `0`), temperature `15`, relative humidity `50`,
pressure `101325`, gust `0`. -/
theorem parseWindyResponse_defaults :
    (∀ (resp : WindyApiResponse) (lat lon : ℝ), resp.wind = none →
      (parseWindyResponse resp lat lon).wind.u = 0 ∧
      (parseWindyResponse resp lat lon).wind.v = 0 ∧
      (parseWindyResponse resp lat lon).wind.speed = 0) ∧
    (∀ (resp : WindyApiResponse) (lat lon : ℝ), resp.temp = none →
      (parseWindyResponse resp lat lon).temp = 15) ∧
    (∀ (resp : WindyApiResponse) (lat lon : ℝ), resp.rh = none →
      (parseWindyResponse resp lat lon).rh = 50) ∧
    (∀ (resp : WindyApiResponse) (lat lon : ℝ), resp.pressure = none →
      (parseWindyResponse resp lat lon).pressure = 101325) ∧
    (∀ (resp : WindyApiResponse) (lat lon : ℝ), resp.gust = none →
      (parseWindyResponse resp lat lon).gust = 0) := by
  refine ⟨?_, ?_, ?_, ?_, ?_⟩ <;> intro resp lat lon h <;>
    simp [parseWindyResponse, h, jsOrNum]

/-- C10 witness: the defaults theorem applied to the all-absent payload. -/
theorem parseWindyResponse_defaults_witness :
    (parseWindyResponse emptyResponse 0 0).wind.u = 0 ∧
    (parseWindyResponse emptyResponse 0 0).wind.v = 0 ∧
    (parseWindyResponse emptyResponse 0 0).wind.speed = 0 ∧
    (parseWindyResponse emptyResponse 0 0).temp = 15 ∧
    (parseWindyResponse emptyResponse 0 0).rh = 50 ∧
    (parseWindyResponse emptyResponse 0 0).pressure = 101325 ∧
    (parseWindyResponse emptyResponse 0 0).gust = 0 := by
  obtain ⟨hw, ht, hr, hp, hg⟩ := parseWindyResponse_defaults
  obtain ⟨hu, hv, hs⟩ := hw emptyResponse 0 0 rfl
  exact ⟨hu, hv, hs, ht emptyResponse 0 0 rfl, hr emptyResponse 0 0 rfl,
    hp emptyResponse 0 0 rfl, hg emptyResponse 0 0 rfl⟩

end WindyWeatherService

end AdmarenApp
